import Mathlib

/-!
Shallow embedding of `src/static/js/data_analysis.js`: a browser-side upload
controller that posts a file to `/data/upload`, renders a preview table, and
posts a column selection to `/data/find_duplicates`.

The DOM elements touched by the controller are modelled as explicit state
(`DomState`), the single closure variable `currentData` lives in
`ControllerState`, and each async handler becomes a pure function from the
state and an oracle for the fetch outcome to a new state plus an effect log
(alerts shown, network requests issued, console.error calls).  JavaScript
exceptions are modelled with `Except`, carrying the DOM state at the point of
the throw so that partial mutation is visible.
-/

/-- A JSON scalar value as it appears in the row records exchanged with the
server (`preview` / `duplicates` entries map column names to scalars). -/
inductive JValue where
  | str (s : String)
  | num (n : Int)
  | bool (b : Bool)
  | null
deriving DecidableEq, Repr

/-- JavaScript `String(v)` coercion for the scalar values above; this is what
`new Error(v).message` applies. -/
def jsString : JValue → String
  | .str s => s
  | .num n => toString n
  | .bool true => "true"
  | .bool false => "false"
  | .null => "null"

/-- The `textContent` setter coercion (`td.textContent = value`): `textContent`
is a `[LegacyNullToEmptyString]` attribute, so assigning `null` stores the
empty string; every other scalar goes through the `String(...)` coercion. -/
def textContentSet : JValue → String
  | .null => ""
  | v => jsString v

/-- JavaScript truthiness of a possibly absent field (`data.error`):
`undefined`, `null`, `""`, `0` and `false` are falsy, everything else truthy. -/
def truthy : Option JValue → Bool
  | none => false
  | some (.str s) => !s.isEmpty
  | some (.num n) => n != 0
  | some (.bool b) => b
  | some .null => false

/-- A row record: a JS object whose own-key iteration order is the list
order.  `Object.keys` is `map Prod.fst`, `Object.values` is `map Prod.snd`. -/
abbrev Row : Type := List (String × JValue)

/-- The `stats` object of an upload response. -/
structure Stats where
  rows : Int
  columns : Int
  duplicates : Int
deriving DecidableEq, Repr

/-- Parsed JSON body of a `/data/upload` response, as the controller reads it.
`error` is `none` when the field is absent. -/
structure UploadResponse where
  error : Option JValue
  filename : String
  stats : Stats
  columns : List String
  preview : List Row
deriving DecidableEq, Repr

/-- Parsed JSON body of a `/data/find_duplicates` response. -/
structure DupResponse where
  error : Option JValue
  count : Int
  duplicates : List Row
deriving DecidableEq, Repr

/-- An entry of `fileInput.files`.  A `File` object is always truthy, so only
presence matters to the controller; we keep the name for concreteness. -/
structure JsFile where
  name : String
deriving DecidableEq, Repr

/-- An `<option>` element created by `populateColumnSelect`. -/
structure OptionElement where
  value : String
  textContent : String
deriving DecidableEq, Repr

/-- The `dupeColumn` `<select>` element: its option list and current value. -/
structure SelectState where
  options : List OptionElement
  value : String
deriving DecidableEq, Repr

/-- Content of the preview table after `displayPreview` built it: header cell
texts and, per body row, the cell texts. -/
structure TableContent where
  header : List String
  body : List (List String)
deriving DecidableEq, Repr

/-- The `previewTable` element.  `opaqueContent n` stands for whatever markup
the page held before the controller touched it (the identity `n` only tracks
that it was not mutated); `cleared` is the state right after
`table.innerHTML = ''`; `rendered t` is a fully built table. -/
inductive TableState where
  | opaqueContent (n : Nat)
  | cleared
  | rendered (t : TableContent)
deriving DecidableEq, Repr

/-- The DOM elements the controller reads or writes. -/
structure DomState where
  fileInputFiles : List JsFile
  resultsSectionDisplay : String
  filenameText : String
  dimensionsText : String
  dupeCountText : String
  dupeColumn : SelectState
  previewTable : TableState
deriving DecidableEq, Repr

/-- The controller's state: the closure variable `currentData` plus the DOM. -/
structure ControllerState where
  currentData : Option UploadResponse
  dom : DomState
deriving DecidableEq, Repr

/-- A network request issued by the controller, with the payload it carries:
the multipart upload, or the JSON body `{ data, column }` of the
find-duplicates POST. -/
inductive NetworkCall where
  | uploadPost (file : JsFile)
  | findDuplicatesPost (data : List Row) (column : String)
deriving DecidableEq, Repr

/-- Observable effects of one handler invocation, in order of occurrence. -/
structure Effects where
  alerts : List String
  requests : List NetworkCall
  errorLogs : Nat
deriving DecidableEq, Repr

/-- Outcome of `await fetch(...)` followed by `await response.json()`:
either a rejection (network failure or JSON parse failure, with the thrown
error's message) or a parsed body. -/
inductive FetchOutcome (α : Type) where
  | reject (message : String)
  | response (body : α)
deriving DecidableEq, Repr

/-- The message of the `TypeError` thrown by `Object.keys(undefined)` when the
renderer reads the keys of the nonexistent first element of an empty list. -/
def typeErrorMessage : String := "Cannot convert undefined or null to object"

/-- `displayFileInfo(data)`: writes `filename`, the dimension string
`"R rows × C columns"`, and the duplicate count into their display elements. -/
def displayFileInfo (data : UploadResponse) (dom : DomState) : DomState :=
  { dom with
    filenameText := data.filename
    dimensionsText :=
      toString data.stats.rows ++ " rows × " ++ toString data.stats.columns ++ " columns"
    dupeCountText := toString data.stats.duplicates }

/-- `populateColumnSelect(columns)`: `select.innerHTML = ''` discards all
prior options, then one `<option>` per column is appended with `value` and
`textContent` both the column name.  Appending options to an empty select
makes the first appended option the selected one, so the select's `value`
becomes the first column name (or `""` when there are no columns). -/
def populateColumnSelect (columns : List String) : SelectState :=
  { options := columns.map fun col => { value := col, textContent := col }
    value := (columns.head?).getD "" }

/-- `displayPreview(previewData)`: first `table.innerHTML = ''`, then
`Object.keys(previewData[0])` builds the header — on an empty list this reads
keys of `undefined` and throws a `TypeError`, leaving the table cleared
(`Except.error` carries the table state at the throw) — then one body row per
record with one cell per value, each cell's text set through the `textContent`
setter coercion of the value. -/
def displayPreview (previewData : List Row) : Except TableState TableState :=
  match previewData with
  | [] => Except.error TableState.cleared
  | first :: rest =>
      Except.ok (TableState.rendered
        { header := first.map Prod.fst
          body := (first :: rest).map fun row => row.map fun kv => textContentSet kv.snd })

/-- `uploadFile()`: aborts with an alert when no file is selected; otherwise
posts the file to `/data/upload` and, on a body without a truthy `error`,
stores it as `currentData`, renders file info, repopulates the column select,
renders the preview, and reveals the results section.  A truthy `error`, a
rejected fetch, or a throw from `displayPreview` lands in the catch block:
`console.error` plus an alert prefixed with the upload error text. -/
def uploadFile (st : ControllerState) (fetch : FetchOutcome UploadResponse) :
    ControllerState × Effects :=
  match st.dom.fileInputFiles.head? with
  | none =>
      (st, { alerts := ["Please select a file first"], requests := [], errorLogs := 0 })
  | some file =>
      match fetch with
      | .reject msg =>
          (st, { alerts := ["Error processing file: " ++ msg]
                 requests := [NetworkCall.uploadPost file], errorLogs := 1 })
      | .response data =>
          if truthy data.error then
            (st, { alerts := ["Error processing file: " ++ jsString (data.error.getD JValue.null)]
                   requests := [NetworkCall.uploadPost file], errorLogs := 1 })
          else
            let dom1 := displayFileInfo data st.dom
            let dom2 := { dom1 with dupeColumn := populateColumnSelect data.columns }
            match displayPreview data.preview with
            | .error tbl =>
                ({ currentData := some data, dom := { dom2 with previewTable := tbl } },
                 { alerts := ["Error processing file: " ++ typeErrorMessage]
                   requests := [NetworkCall.uploadPost file], errorLogs := 1 })
            | .ok tbl =>
                ({ currentData := some data
                   dom := { dom2 with previewTable := tbl, resultsSectionDisplay := "block" } },
                 { alerts := [], requests := [NetworkCall.uploadPost file], errorLogs := 0 })

/-- `findDuplicates()`: a silent no-op while `currentData` is null; otherwise
posts `{ data: currentData.preview, column: select.value }` to
`/data/find_duplicates`.  On a body without a truthy `error` it alerts
`Found N duplicate entries` and then renders `duplicates` into the preview
table; a truthy `error`, a rejected fetch, or a throw from `displayPreview`
lands in the catch block: `console.error` plus an alert prefixed with the
find-duplicates error text. -/
def findDuplicates (st : ControllerState) (fetch : FetchOutcome DupResponse) :
    ControllerState × Effects :=
  match st.currentData with
  | none => (st, { alerts := [], requests := [], errorLogs := 0 })
  | some cd =>
      let call := NetworkCall.findDuplicatesPost cd.preview st.dom.dupeColumn.value
      match fetch with
      | .reject msg =>
          (st, { alerts := ["Error finding duplicates: " ++ msg]
                 requests := [call], errorLogs := 1 })
      | .response data =>
          if truthy data.error then
            (st, { alerts := ["Error finding duplicates: " ++ jsString (data.error.getD JValue.null)]
                   requests := [call], errorLogs := 1 })
          else
            let foundMsg := "Found " ++ toString data.count ++ " duplicate entries"
            match displayPreview data.duplicates with
            | .error tbl =>
                ({ st with dom := { st.dom with previewTable := tbl } },
                 { alerts := [foundMsg, "Error finding duplicates: " ++ typeErrorMessage]
                   requests := [call], errorLogs := 1 })
            | .ok tbl =>
                ({ st with dom := { st.dom with previewTable := tbl } },
                 { alerts := [foundMsg], requests := [call], errorLogs := 0 })

/-- Whether the renderer throws on the given rows (it does exactly when the
row list is empty). -/
def renderFaults (rows : List Row) : Bool :=
  match displayPreview rows with
  | .error _ => true
  | .ok _ => false

/-- A find-duplicates invocation that reaches the fetch fails when the fetch
rejects, the body carries a truthy `error`, or the rendering of `duplicates`
faults. -/
def dupFails : FetchOutcome DupResponse → Bool
  | .reject _ => true
  | .response d => truthy d.error || renderFaults d.duplicates

/-! Concrete sample data used by witnesses and counterexamples. -/

/-- A sample row record with two columns. -/
def sampleRow : Row := [("name", JValue.str "a"), ("age", JValue.num 3)]

/-- A sample row record whose single value is the JSON `null` scalar. -/
def nullRow : Row := [("name", JValue.null)]

/-- A sample successful upload response. -/
def sampleUpload : UploadResponse :=
  { error := none, filename := "t.csv"
    stats := { rows := 1, columns := 2, duplicates := 0 }
    columns := ["name", "age"], preview := [sampleRow] }

/-- The DOM as the host page ships it, before any interaction. -/
def emptyDom : DomState :=
  { fileInputFiles := [], resultsSectionDisplay := "none", filenameText := ""
    dimensionsText := "", dupeCountText := ""
    dupeColumn := { options := [], value := "" }
    previewTable := TableState.opaqueContent 0 }

/-- The controller state on page load. -/
def initialState : ControllerState := { currentData := none, dom := emptyDom }

/-- A state with a file picked but nothing uploaded yet. -/
def uploadReadyState : ControllerState :=
  { currentData := none
    dom := { emptyDom with fileInputFiles := [{ name := "data.xlsx" }] } }

/-- The controller state right after `sampleUpload` was processed. -/
def sampleState : ControllerState :=
  { currentData := some sampleUpload
    dom := { fileInputFiles := [{ name := "t.csv" }]
             resultsSectionDisplay := "block"
             filenameText := "t.csv"
             dimensionsText := "1 rows × 2 columns"
             dupeCountText := "0"
             dupeColumn := { options := [{ value := "name", textContent := "name" },
                                         { value := "age", textContent := "age" }]
                             value := "name" }
             previewTable := TableState.rendered { header := ["name", "age"]
                                                   body := [["a", "3"]] } } }

/-- An upload response carrying an error field. -/
def errorUpload : UploadResponse :=
  { error := some (JValue.str "bad file"), filename := ""
    stats := { rows := 0, columns := 0, duplicates := 0 }, columns := [], preview := [] }

/-- An upload response with no error but an empty preview. -/
def emptyPreviewUpload : UploadResponse :=
  { error := none, filename := "empty.csv"
    stats := { rows := 0, columns := 2, duplicates := 0 }
    columns := ["name", "age"], preview := [] }

/-- A find-duplicates response with no error and an empty duplicates list. -/
def emptyDup : DupResponse := { error := none, count := 0, duplicates := [] }

/-- A find-duplicates response carrying an error field. -/
def errDup : DupResponse :=
  { error := some (JValue.str "no column"), count := 0, duplicates := [] }

/-- A find-duplicates response with one duplicated row reported twice. -/
def dupFound : DupResponse :=
  { error := none, count := 2, duplicates := [sampleRow, sampleRow] }

/-- The renderer throws exactly on an empty row list. -/
theorem renderFaults_iff_nil {rows : List Row} : renderFaults rows = true ↔ rows = [] := by
  cases rows <;> simp [renderFaults, displayPreview]

/-- C5: for every upload click with no file selected, the handler shows the
blocking notification "Please select a file first" and returns: no network
request is issued and neither `currentData` nor any DOM element is mutated,
whatever any fetch would have returned. -/
theorem upload_no_file_aborts (st : ControllerState) (fetch : FetchOutcome UploadResponse)
    (h : st.dom.fileInputFiles = []) :
    uploadFile st fetch =
      (st, { alerts := ["Please select a file first"], requests := [], errorLogs := 0 }) := by
  simp [uploadFile, h]

/-- Witness for C5: a concrete no-file click on the freshly loaded page. -/
theorem upload_no_file_aborts_witness :
    uploadFile initialState (FetchOutcome.reject "network down") =
      (initialState,
       { alerts := ["Please select a file first"], requests := [], errorLogs := 0 }) :=
  upload_no_file_aborts initialState (FetchOutcome.reject "network down") rfl

/-- C6: for every find-duplicates click while `currentData` is still null, the
handler performs no action at all: no network call, no notification, no DOM
mutation, no log. -/
theorem findDuplicates_null_noop (st : ControllerState) (fetch : FetchOutcome DupResponse)
    (h : st.currentData = none) :
    findDuplicates st fetch = (st, { alerts := [], requests := [], errorLogs := 0 }) := by
  simp [findDuplicates, h]

/-- Witness for C6: a concrete find-duplicates click on the freshly loaded
page. -/
theorem findDuplicates_null_noop_witness :
    findDuplicates initialState (FetchOutcome.reject "network down") =
      (initialState, { alerts := [], requests := [], errorLogs := 0 }) :=
  findDuplicates_null_noop initialState (FetchOutcome.reject "network down") rfl

/-- C7: for every find-duplicates click after `currentData` has been set, the
handler issues exactly one POST to /data/find_duplicates whose body's `data`
field is `currentData.preview` and whose `column` field is the column
selector's current value, whatever the response turns out to be. -/
theorem findDuplicates_request_payload (st : ControllerState) (cd : UploadResponse)
    (fetch : FetchOutcome DupResponse) (h : st.currentData = some cd) :
    (findDuplicates st fetch).2.requests =
      [NetworkCall.findDuplicatesPost cd.preview st.dom.dupeColumn.value] := by
  cases fetch with
  | reject msg => simp [findDuplicates, h]
  | response d =>
      by_cases he : truthy d.error
      · simp [findDuplicates, h, he]
      · cases hd : displayPreview d.duplicates <;> simp [findDuplicates, h, he, hd]

/-- Witness for C7: the concrete post-upload state issues the request carrying
its stored preview and the selected column. -/
theorem findDuplicates_request_payload_witness :
    (findDuplicates sampleState (FetchOutcome.reject "network down")).2.requests =
      [NetworkCall.findDuplicatesPost sampleUpload.preview sampleState.dom.dupeColumn.value] :=
  findDuplicates_request_payload sampleState sampleUpload (FetchOutcome.reject "network down") rfl

/-- C9: populating the column selector from a `columns` sequence of N entries
discards all prior options and yields exactly the N options obtained by
mapping each column name to an option whose value and label are that name, in
the same order. -/
theorem populateColumnSelect_contract (columns : List String) :
    (populateColumnSelect columns).options =
      columns.map (fun col => { value := col, textContent := col }) ∧
    (populateColumnSelect columns).options.length = columns.length := by
  refine ⟨rfl, ?_⟩
  simp [populateColumnSelect]

/-- C3: rendering an empty row sequence faults: after clearing the table the
renderer reads the keys of the nonexistent first element and throws, so it
never completes normally (`Except.error`, never `Except.ok`), leaving the
table cleared. -/
theorem displayPreview_empty_faults :
    displayPreview ([] : List Row) = Except.error TableState.cleared := rfl

/-- Counterexample to C4 as stated: the claim pins every cell's text to
`String(value)`, but `td.textContent = value` goes through the
`[LegacyNullToEmptyString]` setter, so a row holding the JSON `null` scalar
renders an empty cell where `String(null)` would be the string "null". -/
theorem displayPreview_null_cell_not_string_coercion :
    ¬ (∀ (first : Row) (rest : List Row),
        displayPreview (first :: rest) =
          Except.ok (TableState.rendered
            { header := first.map Prod.fst
              body := (first :: rest).map fun row => row.map fun kv => jsString kv.snd })) := by
  intro h
  have hc := h nullRow []
  simp [displayPreview, nullRow, textContentSet, jsString] at hc

/-- C4 amended: rendering a non-empty row sequence of R records completes
normally and replaces the table content wholesale with a table whose header is
the first record's keys in native iteration order (hence one header cell per
key of the first record) and whose body has exactly R rows, each row holding
one cell per value of its record, in native value order, with text
`String(value)` for non-null scalars and the empty string for a `null` scalar
(the `textContent` setter's null-to-empty-string coercion). -/
theorem displayPreview_nonempty_renders (first : Row) (rest : List Row) :
    displayPreview (first :: rest) =
      Except.ok (TableState.rendered
        { header := first.map Prod.fst
          body := (first :: rest).map fun row => row.map fun kv => textContentSet kv.snd }) ∧
    textContentSet JValue.null = "" ∧
    (∀ s, textContentSet (JValue.str s) = jsString (JValue.str s)) ∧
    (∀ n, textContentSet (JValue.num n) = jsString (JValue.num n)) ∧
    (∀ b, textContentSet (JValue.bool b) = jsString (JValue.bool b)) ∧
    (first.map Prod.fst).length = first.length ∧
    ((first :: rest).map fun row => row.map fun kv => textContentSet kv.snd).length =
      (first :: rest).length := by
  refine ⟨rfl, rfl, fun s => rfl, fun n => rfl, fun b => ?_, ?_, ?_⟩
  · cases b <;> rfl
  · simp
  · simp

/-- C2: for every upload response whose body carries a truthy `error` field,
the handler leaves the entire controller state unchanged — in particular
`currentData` is unchanged, the column selector gains no options, and the
results section is not revealed — and shows exactly one blocking notification
prefixed "Error processing file: ". -/
theorem upload_error_response_no_mutation (st : ControllerState) (d : UploadResponse)
    (hfile : st.dom.fileInputFiles ≠ []) (herr : truthy d.error = true) :
    (uploadFile st (FetchOutcome.response d)).1 = st ∧
    ∃ m, (uploadFile st (FetchOutcome.response d)).2.alerts =
      ["Error processing file: " ++ m] := by
  cases hls : st.dom.fileInputFiles with
  | nil => exact absurd hls hfile
  | cons f fs =>
      refine ⟨?_, jsString (d.error.getD JValue.null), ?_⟩ <;>
        simp [uploadFile, hls, herr]

/-- Witness for C2: a concrete error response against a state with a file
selected leaves the state untouched and alerts with the prefixed message. -/
theorem upload_error_response_no_mutation_witness :
    (uploadFile uploadReadyState (FetchOutcome.response errorUpload)).1 = uploadReadyState ∧
    ∃ m, (uploadFile uploadReadyState (FetchOutcome.response errorUpload)).2.alerts =
      ["Error processing file: " ++ m] :=
  upload_error_response_no_mutation uploadReadyState errorUpload (by decide) (by decide)

/-- C10: for every upload response with no truthy `error` and an empty
`preview`, the handler still sets `currentData` to the response, renders the
filename, the dimension string and the duplicate count, and populates the
column selector; the preview renderer then clears the table and faults, the
fault is caught, the "Error processing file: " notification is shown, and the
results section keeps its previous display — partial UI mutations remain. -/
theorem upload_empty_preview_partial_mutation (st : ControllerState) (d : UploadResponse)
    (hfile : st.dom.fileInputFiles ≠ []) (herr : truthy d.error = false)
    (hprev : d.preview = []) :
    (uploadFile st (FetchOutcome.response d)).1.currentData = some d ∧
    (uploadFile st (FetchOutcome.response d)).1.dom.filenameText = d.filename ∧
    (uploadFile st (FetchOutcome.response d)).1.dom.dimensionsText =
      toString d.stats.rows ++ " rows × " ++ toString d.stats.columns ++ " columns" ∧
    (uploadFile st (FetchOutcome.response d)).1.dom.dupeCountText =
      toString d.stats.duplicates ∧
    (uploadFile st (FetchOutcome.response d)).1.dom.dupeColumn.options =
      d.columns.map (fun col => { value := col, textContent := col }) ∧
    (uploadFile st (FetchOutcome.response d)).1.dom.previewTable = TableState.cleared ∧
    (uploadFile st (FetchOutcome.response d)).1.dom.resultsSectionDisplay =
      st.dom.resultsSectionDisplay ∧
    (uploadFile st (FetchOutcome.response d)).2.alerts =
      ["Error processing file: " ++ typeErrorMessage] := by
  cases hls : st.dom.fileInputFiles with
  | nil => exact absurd hls hfile
  | cons f fs =>
      simp [uploadFile, hls, herr, hprev, displayPreview, displayFileInfo,
            populateColumnSelect]

/-- Witness for C10: a concrete empty-preview success response against a state
with a file selected. -/
theorem upload_empty_preview_partial_mutation_witness :
    (uploadFile uploadReadyState (FetchOutcome.response emptyPreviewUpload)).1.currentData =
      some emptyPreviewUpload ∧
    (uploadFile uploadReadyState (FetchOutcome.response emptyPreviewUpload)).1.dom.filenameText =
      emptyPreviewUpload.filename ∧
    (uploadFile uploadReadyState (FetchOutcome.response emptyPreviewUpload)).1.dom.dimensionsText =
      toString emptyPreviewUpload.stats.rows ++ " rows × " ++
        toString emptyPreviewUpload.stats.columns ++ " columns" ∧
    (uploadFile uploadReadyState (FetchOutcome.response emptyPreviewUpload)).1.dom.dupeCountText =
      toString emptyPreviewUpload.stats.duplicates ∧
    (uploadFile uploadReadyState
        (FetchOutcome.response emptyPreviewUpload)).1.dom.dupeColumn.options =
      emptyPreviewUpload.columns.map (fun col => { value := col, textContent := col }) ∧
    (uploadFile uploadReadyState (FetchOutcome.response emptyPreviewUpload)).1.dom.previewTable =
      TableState.cleared ∧
    (uploadFile uploadReadyState
        (FetchOutcome.response emptyPreviewUpload)).1.dom.resultsSectionDisplay =
      uploadReadyState.dom.resultsSectionDisplay ∧
    (uploadFile uploadReadyState (FetchOutcome.response emptyPreviewUpload)).2.alerts =
      ["Error processing file: " ++ typeErrorMessage] :=
  upload_empty_preview_partial_mutation uploadReadyState emptyPreviewUpload
    (by decide) rfl rfl

/-- Counterexample to C1 as stated: a failing find-duplicates invocation can
mutate the preview table.  With the concrete post-upload state and the
response `{ count: 0, duplicates: [] }` (no error field), the invocation fails
because rendering faults, yet `table.innerHTML = ''` has already run: the
table ends cleared instead of keeping its previous rendered content. -/
theorem findDuplicates_failure_can_mutate_table :
    ¬ (∀ (st : ControllerState) (cd : UploadResponse) (fetch : FetchOutcome DupResponse),
        st.currentData = some cd → dupFails fetch = true →
        (∃ m, ("Error finding duplicates: " ++ m) ∈ (findDuplicates st fetch).2.alerts) ∧
        (findDuplicates st fetch).1.dom.previewTable = st.dom.previewTable) := by
  intro h
  have htab := (h sampleState sampleUpload (FetchOutcome.response emptyDup) rfl (by decide)).2
  exact absurd htab (by decide)

/-- C1 amended: every failing find-duplicates invocation (made with
`currentData` set, so that the fetch actually happens) shows a blocking
notification prefixed "Error finding duplicates: "; the preview table is left
unmutated when the fetch rejects or the body carries a truthy `error`, but
when the failure is a rendering fault the table has already been cleared and
stays cleared. -/
theorem findDuplicates_failure_contract (st : ControllerState) (cd : UploadResponse)
    (fetch : FetchOutcome DupResponse) (h : st.currentData = some cd)
    (hfail : dupFails fetch = true) :
    (∃ m, ("Error finding duplicates: " ++ m) ∈ (findDuplicates st fetch).2.alerts) ∧
    (match fetch with
     | .reject _ => (findDuplicates st fetch).1.dom.previewTable = st.dom.previewTable
     | .response d =>
         if truthy d.error then
           (findDuplicates st fetch).1.dom.previewTable = st.dom.previewTable
         else
           (findDuplicates st fetch).1.dom.previewTable = TableState.cleared) := by
  cases fetch with
  | reject msg =>
      exact ⟨⟨msg, by simp [findDuplicates, h]⟩, by simp [findDuplicates, h]⟩
  | response d =>
      by_cases he : truthy d.error
      · exact ⟨⟨jsString (d.error.getD JValue.null), by simp [findDuplicates, h, he]⟩,
               by simp [findDuplicates, h, he]⟩
      · have hnil : d.duplicates = [] := by
          have : renderFaults d.duplicates = true := by
            simpa [dupFails, he] using hfail
          exact renderFaults_iff_nil.mp this
        exact ⟨⟨typeErrorMessage, by simp [findDuplicates, h, he, hnil, displayPreview]⟩,
               by simp [findDuplicates, h, he, hnil, displayPreview]⟩

/-- Witness for the amended C1: a concrete error-field response against the
post-upload state alerts with the prefix and leaves the table unmutated. -/
theorem findDuplicates_failure_contract_witness :
    (∃ m, ("Error finding duplicates: " ++ m) ∈
      (findDuplicates sampleState (FetchOutcome.response errDup)).2.alerts) ∧
    (if truthy errDup.error then
       (findDuplicates sampleState (FetchOutcome.response errDup)).1.dom.previewTable =
         sampleState.dom.previewTable
     else
       (findDuplicates sampleState (FetchOutcome.response errDup)).1.dom.previewTable =
         TableState.cleared) :=
  findDuplicates_failure_contract sampleState sampleUpload (FetchOutcome.response errDup)
    rfl (by decide)

/-- Counterexample to C8 as stated: an error-free find-duplicates response
whose `duplicates` list is empty does show the "Found 0 duplicate entries"
notification first, but the subsequent rendering never completes, so the
table's content is not replaced by rendered duplicate rows (it ends merely
cleared, followed by an error notification). -/
theorem findDuplicates_success_render_can_fault :
    ¬ (∀ (st : ControllerState) (cd : UploadResponse) (d : DupResponse),
        st.currentData = some cd → truthy d.error = false →
        (findDuplicates st (FetchOutcome.response d)).2.alerts.head? =
          some ("Found " ++ toString d.count ++ " duplicate entries") ∧
        ∃ t, displayPreview d.duplicates = Except.ok t ∧
             (findDuplicates st (FetchOutcome.response d)).1.dom.previewTable = t) := by
  intro h
  obtain ⟨-, t, ht, -⟩ := h sampleState sampleUpload emptyDup rfl rfl
  simp [emptyDup, displayPreview] at ht

/-- C8 amended: for every error-free find-duplicates response carrying
`count` N and a non-empty `duplicates` list, the handler shows exactly the
blocking notification "Found N duplicate entries" and then replaces the
preview table's entire content with the completed rendering of `duplicates`;
on an empty `duplicates` list the notification is still shown first, but the
rendering faults and leaves the table cleared instead. -/
theorem findDuplicates_success_contract (st : ControllerState) (cd : UploadResponse)
    (d : DupResponse) (h : st.currentData = some cd) (herr : truthy d.error = false)
    (hne : d.duplicates ≠ []) :
    (findDuplicates st (FetchOutcome.response d)).2.alerts =
      ["Found " ++ toString d.count ++ " duplicate entries"] ∧
    ∃ t, displayPreview d.duplicates = Except.ok t ∧
         (findDuplicates st (FetchOutcome.response d)).1.dom.previewTable = t := by
  cases hd : d.duplicates with
  | nil => exact absurd hd hne
  | cons r rs =>
      refine ⟨by simp [findDuplicates, h, herr, hd, displayPreview], ?_⟩
      exact ⟨TableState.rendered
        { header := r.map Prod.fst
          body := (r :: rs).map fun row => row.map fun kv => textContentSet kv.snd },
        by simp [hd, displayPreview],
        by simp [findDuplicates, h, herr, hd, displayPreview]⟩

/-- Witness for the amended C8: a concrete two-row duplicates response against
the post-upload state. -/
theorem findDuplicates_success_contract_witness :
    (findDuplicates sampleState (FetchOutcome.response dupFound)).2.alerts =
      ["Found " ++ toString dupFound.count ++ " duplicate entries"] ∧
    ∃ t, displayPreview dupFound.duplicates = Except.ok t ∧
         (findDuplicates sampleState (FetchOutcome.response dupFound)).1.dom.previewTable = t :=
  findDuplicates_success_contract sampleState sampleUpload dupFound rfl rfl (by decide)
